import Mathlib

/-!
Shallow embedding of the prediction engine of `src/index.js`
(football-analyzer-backend-v2).

JavaScript numbers are modelled by a linear ordered field `α`
(instantiated at `ℝ` for the analytic results and at `ℚ` for executable
witnesses); the Poisson layer, which uses `Math.exp`, is modelled over `ℝ`.
The JavaScript value `NaN` (which the source produces inside
`computeDistributionClarity`) is modelled by `none : Option α`, and the
JavaScript value `undefined` (which the source produces for `mainPick`)
is modelled by `none : Option String`.
-/

namespace FootballAnalyzer

variable {α : Type} [LinearOrderedField α]

/-- `clamp` (src/index.js:63-65): `Math.max(min, Math.min(max, v))`. -/
def clamp (v lo hi : α) : α := max lo (min hi v)

/-- `poissonPMF` (src/index.js:58-61): for `lambda ≤ 0` it returns `1` at
`k = 0` and `0` otherwise, else `Math.exp(-lambda) * lambda^k / factorial(k)`.
The `factorial` helper (src/index.js:49-56) computes `k!` (memoized). -/
noncomputable def poissonPMF (lambda : ℝ) (k : ℕ) : ℝ :=
  if lambda ≤ 0 then (if k = 0 then 1 else 0)
  else Real.exp (-lambda) * lambda ^ k / (Nat.factorial k)

/-- JavaScript `ToNumber` coercion of an array of numbers: `[] → 0`
(via the empty string), `[x] → x`, and an array with two or more elements
coerces to a comma-separated string, hence to `NaN` (modelled `none`). -/
def jsArrayToNumber (l : List α) : Option α :=
  match l with
  | [] => some 0
  | [x] => some x
  | _ => none

/-- JavaScript subtraction where either operand may be `NaN` (`none`). -/
def jsSub (x y : Option α) : Option α :=
  match x, y with
  | some u, some v => some (u - v)
  | _, _ => none

/-- JavaScript `Math.min`, which returns `NaN` if any argument is `NaN`. -/
def jsMin (x y : Option α) : Option α :=
  match x, y with
  | some u, some v => some (min u v)
  | _, _ => none

/-- `Number(x.toFixed(2))`: rounding to two decimal places, modelled as
round half up.  No claim below depends on the tie-breaking direction. -/
def toFixed2 [FloorRing α] (x : α) : α := ((⌊x * 100 + 1 / 2⌋ : ℤ) : α) / 100

/-- JavaScript `Math.round`: rounds half towards positive infinity. -/
def jsRound [FloorRing α] (x : α) : α := ((⌊x + 1 / 2⌋ : ℤ) : α)

/-- A three-element stable descending sort by the key `f`, the effect of
JavaScript `[x, y, z].sort((u, v) => f v - f u)` (ties keep insertion
order, as guaranteed for `Array.prototype.sort`). -/
def sortDesc3By {β : Type} (f : β → α) (x y z : β) : List β :=
  if f y ≤ f x then
    if f z ≤ f y then [x, y, z]
    else if f z ≤ f x then [x, z, y]
    else [z, x, y]
  else
    if f z ≤ f x then [y, x, z]
    else if f z ≤ f y then [y, z, x]
    else [z, y, x]

/-- `computeDistributionClarity` (src/index.js:189-193).  The source sorts
the three probabilities descending into the array `s` and then computes
`const diff = (s - s) / 100`.  The operands of `-` are the ARRAY `s`
itself (not its elements), and subtracting a three-element array from a
three-element array in JavaScript coerces both sides to the string
`"x,y,z"` and then to `NaN`; so `diff` is `NaN` for every input, and the
returned `Number(Math.min(1, diff / 0.4).toFixed(2))` is `NaN` (`none`). -/
def computeDistributionClarity [FloorRing α] (h d a : α) : Option α :=
  let s := sortDesc3By id h d a
  let diff := (jsSub (jsArrayToNumber s) (jsArrayToNumber s)).map (· / 100)
  (jsMin (some 1) (diff.map (· / 0.4))).map toFixed2

/-- The per-fixture context object built in `buildPredictionForFixture`
(src/index.js:322-330 and 373-380). -/
structure MatchContext (α : Type) where
  homeMatchesTotal : ℕ
  awayMatchesTotal : ℕ
  homeRecentMatches : ℕ
  awayRecentMatches : ℕ
  dataQuality : α
  sampleSize : α
  recentFactor : α

/-- The `components` object of `buildRealConfidence` (src/index.js:222). -/
structure ConfidenceComponents (α : Type) where
  dataQ : α
  sample : α
  clarity : Option α
  recent : α

/-- The result object of `buildRealConfidence` (src/index.js:222). -/
structure RealConfidence (α : Type) where
  percent : Option α
  components : ConfidenceComponents α
  label : String

/-- JavaScript `x >= c` where `x` may be `NaN`: any comparison with `NaN`
is `false`. -/
def jsGE (x : Option α) (c : α) : Bool :=
  match x with
  | none => false
  | some v => decide (c ≤ v)

/-- `buildRealConfidence` (src/index.js:195-223).  The `context` argument
is `Option`al because the source guards every use with `if (context)`;
all call sites in the source pass an object (modelled `some`). -/
def buildRealConfidence [FloorRing α] (probHome probDraw probAway : α)
    (context : Option (MatchContext α)) : RealConfidence α :=
  let dataQ : α :=
    match context with
    | none => 0.3
    | some c =>
      if 5 ≤ c.homeMatchesTotal ∧ 5 ≤ c.awayMatchesTotal then 1
      else if 3 ≤ c.homeMatchesTotal ∧ 3 ≤ c.awayMatchesTotal then 0.7
      else 0.4
  let sample : α :=
    match context with
    | none => 0.3
    | some c => min 1 (((c.homeMatchesTotal + c.awayMatchesTotal : ℕ) : α) / 40)
  let recent : α :=
    match context with
    | none => 0.3
    | some c =>
      let m := min c.homeRecentMatches c.awayRecentMatches
      if 5 ≤ m then 1 else if 3 ≤ m then 0.7 else if 1 ≤ m then 0.5 else 0.3
  let clarity := computeDistributionClarity probHome probDraw probAway
  let score :=
    clarity.map (fun cl => dataQ * 0.35 + sample * 0.25 + cl * 0.25 + recent * 0.15)
  let pct := score.map (fun s => jsRound (max 0 (min 1 s) * 100))
  let label := if jsGE pct 60 then "ridicată" else if jsGE pct 40 then "medie" else "scăzută"
  { percent := pct
    components := { dataQ := dataQ, sample := sample, clarity := clarity, recent := recent }
    label := label }

/-- `getMatchProfile` (src/index.js:225-237): seven rules tried in order,
first match wins. -/
def getMatchProfile (over25 under25 h d a bttsYes : α) : String :=
  if 60 ≤ over25 ∧ 55 ≤ bttsYes then "GOALS_GAME"
  else if 50 ≤ h ∧ 55 ≤ under25 then "HOME_AND_UNDER"
  else if |h - a| ≤ 10 ∧ 60 ≤ bttsYes then "BALANCED_BTTS"
  else if h < 40 ∧ a < 40 ∧ 25 < d then "HIGH_VARIANCE"
  else if 55 ≤ h then "STRONG_HOME"
  else if 55 ≤ a then "STRONG_AWAY"
  else "NEUTRAL"

/-- `getDataFlag` (src/index.js:239-247). -/
def getDataFlag (dataQuality sampleSize recentFactor : α) : String :=
  if 0.8 ≤ dataQuality ∧ 0.6 ≤ sampleSize ∧ 0.7 ≤ recentFactor then "GOOD_DATA"
  else if 0.5 ≤ dataQuality ∧ 0.4 ≤ sampleSize then "OK_DATA"
  else "LOW_DATA"

/-- One entry of the recent-form list built in `getTeamRecentForm`
(src/index.js:138-143). -/
structure FormSample where
  home : Bool
  goalsFor : ℕ
  goalsAgainst : ℕ

/-- The result object of `computeFormFactor` (src/index.js:174, 186). -/
structure FormFactor (α : Type) where
  attack : α
  defense : α
  nMatches : ℕ  -- called `matches` in the source; `matches` is a Lean keyword

/-- `computeFormFactor` (src/index.js:173-187).  The argument is `none`
when the lookup returned `null` and `some l` for an actual list; the
source's guard is `if (!list || !list.length)`. -/
def computeFormFactor (list : Option (List FormSample)) : FormFactor α :=
  match list with
  | none => { attack := 1, defense := 1, nMatches := 0 }
  | some l =>
    if l.length = 0 then { attack := 1, defense := 1, nMatches := 0 }
    else
      let gf : ℕ := (l.map (fun m => m.goalsFor)).sum
      let ga : ℕ := (l.map (fun m => m.goalsAgainst)).sum
      let n := l.length
      let avgGF : α := (gf : α) / n
      let avgGA : α := (ga : α) / n
      let base : α := 1.3
      let atk := 0.7 + 0.3 * (avgGF / base)
      let dfn := 0.7 + 0.3 * (base / max avgGA 0.3)
      { attack := clamp atk 0.6 1.4, defense := clamp dfn 0.6 1.4, nMatches := n }

/-- Win mass `wH` accumulated over the truncated 8×8 score grid
(src/index.js:259-270): pairs with `h > a`. -/
noncomputable def wH (lH lA : ℝ) : ℝ :=
  ∑ h ∈ Finset.range 8, ∑ a ∈ Finset.range 8,
    if a < h then poissonPMF lH h * poissonPMF lA a else 0

/-- Draw mass `wD` (src/index.js:265): pairs with `h === a`. -/
noncomputable def wD (lH lA : ℝ) : ℝ :=
  ∑ h ∈ Finset.range 8, ∑ a ∈ Finset.range 8,
    if h = a then poissonPMF lH h * poissonPMF lA a else 0

/-- Loss mass `wA` (src/index.js:266): pairs with `h < a`. -/
noncomputable def wA (lH lA : ℝ) : ℝ :=
  ∑ h ∈ Finset.range 8, ∑ a ∈ Finset.range 8,
    if h < a then poissonPMF lH h * poissonPMF lA a else 0

/-- Over-2.5 mass `ov` (src/index.js:267): pairs with `h + a >= 3`. -/
noncomputable def ovMass (lH lA : ℝ) : ℝ :=
  ∑ h ∈ Finset.range 8, ∑ a ∈ Finset.range 8,
    if 3 ≤ h + a then poissonPMF lH h * poissonPMF lA a else 0

/-- Both-teams-score mass `b` (src/index.js:268): pairs with `h > 0 && a > 0`. -/
noncomputable def bttsMass (lH lA : ℝ) : ℝ :=
  ∑ h ∈ Finset.range 8, ∑ a ∈ Finset.range 8,
    if 0 < h ∧ 0 < a then poissonPMF lH h * poissonPMF lA a else 0

/-- `out.goals` (src/index.js:297). -/
structure GoalsMarkets (α : Type) where
  over25 : α
  under25 : α

/-- `out.btts` (src/index.js:298). -/
structure BttsMarkets (α : Type) where
  yes : α
  no : α

/-- The prediction object `out` assembled in `buildPrediction`
(src/index.js:281-312).  `confidenceDetails` spreads the
`buildRealConfidence` result and adds the three context echoes
(src/index.js:291-296), modelled as the three `details*` fields. -/
structure Prediction (α : Type) where
  probHome : α
  probDraw : α
  probAway : α
  mainPick : Option String
  confidence : Option α
  confidenceDetails : RealConfidence α
  detailsDataQuality : α
  detailsSampleSize : α
  detailsRecentFactor : α
  goals : GoalsMarkets α
  btts : BttsMarkets α
  lambdas : α × α
  matchProfile : String
  dataFlag : String

/-- `mainPick` (src/index.js:285-289): the source sorts the three
`{key, val}` records descending by `val` and then reads `.key` on the
sorted ARRAY itself, not on its first element.  A JavaScript array has no
`key` property, so the result is `undefined`, modelled `none`. -/
def jsArrayKeyProp {β : Type} (_ : List (String × β)) : Option String := none

/-- `buildPrediction` (src/index.js:249-313). -/
noncomputable def buildPrediction (lambdaHome lambdaAway : ℝ) (ctx : MatchContext ℝ) :
    Prediction ℝ :=
  let probHome := wH lambdaHome lambdaAway * 100
  let probDraw := wD lambdaHome lambdaAway * 100
  let probAway := wA lambdaHome lambdaAway * 100
  let over25 := ovMass lambdaHome lambdaAway * 100
  let bttsYes := bttsMass lambdaHome lambdaAway * 100
  let real := buildRealConfidence probHome probDraw probAway (some ctx)
  { probHome := probHome
    probDraw := probDraw
    probAway := probAway
    mainPick := jsArrayKeyProp
      (sortDesc3By Prod.snd ("HOME", probHome) ("DRAW", probDraw) ("AWAY", probAway))
    confidence := real.percent.map (fun p => clamp p 25 75)
    confidenceDetails := real
    detailsDataQuality := ctx.dataQuality
    detailsSampleSize := ctx.sampleSize
    detailsRecentFactor := ctx.recentFactor
    goals := { over25 := over25, under25 := 100 - over25 }
    btts := { yes := bttsYes, no := 100 - bttsYes }
    lambdas := (toFixed2 lambdaHome, toFixed2 lambdaAway)
    matchProfile := getMatchProfile over25 (100 - over25) probHome probDraw probAway bttsYes
    dataFlag := getDataFlag ctx.dataQuality ctx.sampleSize ctx.recentFactor }

/-- The fields of the provider's team-statistics response that
`buildPredictionForFixture` reads (src/index.js:342-348, 373-374);
absent fields default to zero via `|| 0`. -/
structure ApiTeamStats where
  playedHome : ℕ
  playedAway : ℕ
  playedTotal : ℕ
  goalsForTotalHome : ℕ
  goalsForTotalAway : ℕ
  goalsAgainstTotalHome : ℕ
  goalsAgainstTotalAway : ℕ

/-- The degraded default context (src/index.js:322-330). -/
def defaultCtx : MatchContext α :=
  { homeMatchesTotal := 0
    awayMatchesTotal := 0
    homeRecentMatches := 0
    awayRecentMatches := 0
    dataQuality := 0.3
    sampleSize := 0.3
    recentFactor := 0.3 }

/-- `buildPredictionForFixture` (src/index.js:315-388), with the four
provider lookups (home/away season statistics and recent form, each of
which may return `null`) passed in as arguments.  The source initialises
`lH = 1.35`, `lA = 1.25` and the degraded context, and overwrites them
only inside `if (stH && stA)`. -/
noncomputable def buildPredictionForFixture (stH stA : Option ApiTeamStats)
    (rH rA : Option (List FormSample)) : Prediction ℝ :=
  match stH, stA with
  | some sH, some sA =>
    let hP := sH.playedHome
    let hGF := sH.goalsForTotalHome
    let hGA := sH.goalsAgainstTotalHome
    let aP := sA.playedAway
    let aGF := sA.goalsForTotalAway
    let aGA := sA.goalsAgainstTotalAway
    let hAvgF : ℝ := if hP = 0 then 1.4 else (hGF : ℝ) / hP
    let hAvgA : ℝ := if hP = 0 then 1.2 else (hGA : ℝ) / hP
    let aAvgF : ℝ := if aP = 0 then 1.3 else (aGF : ℝ) / aP
    let aAvgA : ℝ := if aP = 0 then 1.2 else (aGA : ℝ) / aP
    let lH0 := clamp ((hAvgF + aAvgA) / 2 * 1.1) 0.4 3.2
    let lA0 := clamp ((aAvgF + hAvgA) / 2 * 0.95) 0.4 3.2
    let fH : FormFactor ℝ := computeFormFactor rH
    let fA : FormFactor ℝ := computeFormFactor rA
    let lH := clamp (lH0 * (fH.attack * fA.defense)) 0.4 3.2
    let lA := clamp (lA0 * (fA.attack * fH.defense)) 0.4 3.2
    let ctx : MatchContext ℝ :=
      { homeMatchesTotal := sH.playedTotal
        awayMatchesTotal := sA.playedTotal
        homeRecentMatches := fH.nMatches
        awayRecentMatches := fA.nMatches
        dataQuality :=
          if 5 ≤ sH.playedTotal ∧ 5 ≤ sA.playedTotal then 1
          else if 3 ≤ sH.playedTotal ∧ 3 ≤ sA.playedTotal then 0.7
          else 0.4
        sampleSize := min 1 (((sH.playedTotal + sA.playedTotal : ℕ) : ℝ) / 40)
        recentFactor :=
          if 5 ≤ fH.nMatches ∧ 5 ≤ fA.nMatches then 1
          else if 3 ≤ fH.nMatches ∧ 3 ≤ fA.nMatches then 0.7
          else if 1 ≤ fH.nMatches ∧ 1 ≤ fA.nMatches then 0.5
          else 0.3 }
    buildPrediction lH lA ctx
  | _, _ => buildPrediction 1.35 1.25 defaultCtx

/-! ## Helper lemmas -/

lemma jsArrayToNumber_cons_cons (x y : α) (l : List α) :
    jsArrayToNumber (x :: y :: l) = none := rfl

lemma sortDesc3By_shape {β : Type} (f : β → α) (x y z : β) :
    ∃ u v w, sortDesc3By f x y z = [u, v, w] := by
  unfold sortDesc3By
  split_ifs <;> exact ⟨_, _, _, rfl⟩

lemma computeDistributionClarity_eq_none [FloorRing α] (h d a : α) :
    computeDistributionClarity h d a = none := by
  obtain ⟨u, v, w, huvw⟩ := sortDesc3By_shape (id : α → α) h d a
  simp [computeDistributionClarity, huvw, jsArrayToNumber_cons_cons, jsSub, jsMin]

/-! ## Claim theorems (part 1) -/

/-- Claim C9: for an absent (`none`) or empty recent-form sample the
form-factor computation returns exactly the neutral result: attack `1`,
defense `1`, sample count `0`. -/
theorem formFactor_neutral_on_empty :
    computeFormFactor (α := α) none = { attack := 1, defense := 1, nMatches := 0 } ∧
    computeFormFactor (α := α) (some []) = { attack := 1, defense := 1, nMatches := 0 } := by
  constructor <;> rfl

/-- Witness for C9 at `α = ℚ`. -/
theorem formFactor_neutral_on_empty_witness :
    computeFormFactor (α := ℚ) none = { attack := 1, defense := 1, nMatches := 0 } ∧
    computeFormFactor (α := ℚ) (some []) = { attack := 1, defense := 1, nMatches := 0 } :=
  formFactor_neutral_on_empty

/-- Claim C10: `buildRealConfidence` ignores the stored `dataQuality`,
`sampleSize`, `recentFactor` fields of the context (here arbitrary
`q s r`) and recomputes its components from the raw match counts: for a
context with zero total and recent matches they are `dataQ = 0.4`,
`sample = 0`, `recent = 0.3`. -/
theorem confidence_ignores_stored_signals [FloorRing α] (ph pd pa q s r : α) :
    (buildRealConfidence ph pd pa (some
      { homeMatchesTotal := 0, awayMatchesTotal := 0, homeRecentMatches := 0,
        awayRecentMatches := 0, dataQuality := q, sampleSize := s,
        recentFactor := r })).components.dataQ = 0.4 ∧
    (buildRealConfidence ph pd pa (some
      { homeMatchesTotal := 0, awayMatchesTotal := 0, homeRecentMatches := 0,
        awayRecentMatches := 0, dataQuality := q, sampleSize := s,
        recentFactor := r })).components.sample = 0 ∧
    (buildRealConfidence ph pd pa (some
      { homeMatchesTotal := 0, awayMatchesTotal := 0, homeRecentMatches := 0,
        awayRecentMatches := 0, dataQuality := q, sampleSize := s,
        recentFactor := r })).components.recent = 0.3 := by
  refine ⟨?_, ?_, ?_⟩ <;> simp [buildRealConfidence]

/-- Witness for C10 at `α = ℚ` with stored signals `0.3/0.3/0.3`. -/
theorem confidence_ignores_stored_signals_witness :
    (buildRealConfidence (50 : ℚ) 30 20 (some
      { homeMatchesTotal := 0, awayMatchesTotal := 0, homeRecentMatches := 0,
        awayRecentMatches := 0, dataQuality := 0.3, sampleSize := 0.3,
        recentFactor := 0.3 })).components.dataQ = 0.4 ∧
    (buildRealConfidence (50 : ℚ) 30 20 (some
      { homeMatchesTotal := 0, awayMatchesTotal := 0, homeRecentMatches := 0,
        awayRecentMatches := 0, dataQuality := 0.3, sampleSize := 0.3,
        recentFactor := 0.3 })).components.sample = 0 ∧
    (buildRealConfidence (50 : ℚ) 30 20 (some
      { homeMatchesTotal := 0, awayMatchesTotal := 0, homeRecentMatches := 0,
        awayRecentMatches := 0, dataQuality := 0.3, sampleSize := 0.3,
        recentFactor := 0.3 })).components.recent = 0.3 :=
  confidence_ignores_stored_signals 50 30 20 0.3 0.3 0.3

/-- Claim C8: `getMatchProfile` is total over the fixed seven-tag set, and
the rules are evaluated in priority order with first match winning: an
input satisfying both the GOALS_GAME condition (`over25 ≥ 60`,
`bttsYes ≥ 55`) and the STRONG_HOME condition (`probHome ≥ 55`)
classifies as GOALS_GAME. -/
theorem matchProfile_total_and_priority (over25 under25 h d a bttsYes : α) :
    getMatchProfile over25 under25 h d a bttsYes ∈
      ["GOALS_GAME", "HOME_AND_UNDER", "BALANCED_BTTS", "HIGH_VARIANCE",
       "STRONG_HOME", "STRONG_AWAY", "NEUTRAL"] ∧
    (60 ≤ over25 → 55 ≤ bttsYes → 55 ≤ h →
      getMatchProfile over25 under25 h d a bttsYes = "GOALS_GAME") := by
  unfold getMatchProfile
  constructor
  · split_ifs <;> simp
  · intro h1 h2 _
    simp [h1, h2]

/-- Witness for C8 at `α = ℚ`, at an input satisfying rules 1 and 5. -/
theorem matchProfile_total_and_priority_witness :
    getMatchProfile (65 : ℚ) 35 60 20 20 60 ∈
      ["GOALS_GAME", "HOME_AND_UNDER", "BALANCED_BTTS", "HIGH_VARIANCE",
       "STRONG_HOME", "STRONG_AWAY", "NEUTRAL"] ∧
    getMatchProfile (65 : ℚ) 35 60 20 20 60 = "GOALS_GAME" :=
  ⟨(matchProfile_total_and_priority 65 35 60 20 20 60).1,
   (matchProfile_total_and_priority 65 35 60 20 20 60).2
     (by norm_num) (by norm_num) (by norm_num)⟩

/-- Claim C5: in every prediction `over25 + under25 = 100` and
`bttsYes + bttsNo = 100` exactly, because the second member of each pair
is computed as `100 -` the first. -/
theorem goals_btts_complementary (lH lA : ℝ) (ctx : MatchContext ℝ) :
    (buildPrediction lH lA ctx).goals.over25 + (buildPrediction lH lA ctx).goals.under25 = 100 ∧
    (buildPrediction lH lA ctx).btts.yes + (buildPrediction lH lA ctx).btts.no = 100 := by
  constructor <;> simp [buildPrediction]

/-- Witness for C5 at the neutral rates. -/
theorem goals_btts_complementary_witness :
    (buildPrediction 1.35 1.25 defaultCtx).goals.over25 +
      (buildPrediction 1.35 1.25 defaultCtx).goals.under25 = 100 ∧
    (buildPrediction 1.35 1.25 defaultCtx).btts.yes +
      (buildPrediction 1.35 1.25 defaultCtx).btts.no = 100 :=
  goals_btts_complementary 1.35 1.25 defaultCtx

/-- Claim C2 (code bug): at the concrete input `(60, 25, 15)` the source's
clarity computation returns NaN (`none`), not the specified
`min(1, (60 - 25)/40) = 0.88`: `(s - s)` subtracts the sorted array from
itself, which is NaN in JavaScript. -/
theorem clarity_nan_at_input :
    computeDistributionClarity (60 : ℝ) 25 15 = none :=
  computeDistributionClarity_eq_none 60 25 15

/-- Claim C3 (code bug): the `mainPick` field is `undefined` (`none`) —
the source reads `.key` on the sorted array instead of on its first
element — rather than the label of the most probable outcome. -/
theorem mainPick_undefined :
    (buildPrediction 1.35 1.25 defaultCtx).mainPick = none := rfl

/-- Claim C1 (code bug): the reported confidence of a prediction is NaN
(`none`), not an integer in `[25, 75]`: the NaN clarity signal propagates
through the weighted score, `Math.round`, and the `clamp(·, 25, 75)`. -/
theorem confidence_nan :
    (buildPrediction 1.35 1.25 defaultCtx).confidence = none := by
  simp [buildPrediction, buildRealConfidence, computeDistributionClarity_eq_none]

/-- Claim C7: when either team's season statistics are `none`, the fixture
prediction is still produced, with the fixed neutral rates
`lambdaHome = 1.35`, `lambdaAway = 1.25` and the degraded context
`dataQuality = sampleSize = recentFactor = 0.3`. -/
theorem fixture_fallback_on_missing_stats (stH stA : Option ApiTeamStats)
    (rH rA : Option (List FormSample)) (h : stH = none ∨ stA = none) :
    buildPredictionForFixture stH stA rH rA = buildPrediction 1.35 1.25 defaultCtx := by
  rcases h with h | h
  · subst h; cases stA <;> rfl
  · subst h; cases stH <;> rfl

/-- Witness for C7: both lookups missing. -/
theorem fixture_fallback_on_missing_stats_witness :
    buildPredictionForFixture none none none none = buildPrediction 1.35 1.25 defaultCtx :=
  fixture_fallback_on_missing_stats none none none none (Or.inl rfl)

/-! ## Poisson mass helpers -/

lemma poissonPMF_nonneg (l : ℝ) (k : ℕ) : 0 ≤ poissonPMF l k := by
  unfold poissonPMF
  split_ifs with h1 h2
  · norm_num
  · norm_num
  · have hl : 0 < l := not_le.mp h1
    positivity

lemma sum_poissonPMF_nonneg (l : ℝ) (n : ℕ) :
    0 ≤ ∑ k ∈ Finset.range n, poissonPMF l k :=
  Finset.sum_nonneg fun k _ => poissonPMF_nonneg l k

lemma sum_poissonPMF_eq (l : ℝ) (hl : 0 < l) (n : ℕ) :
    ∑ k ∈ Finset.range n, poissonPMF l k
      = Real.exp (-l) * ∑ k ∈ Finset.range n, l ^ k / (Nat.factorial k : ℝ) := by
  rw [Finset.mul_sum]
  refine Finset.sum_congr rfl fun k _ => ?_
  unfold poissonPMF
  rw [if_neg (not_le.mpr hl)]
  ring

lemma sum_poissonPMF_le_one (l : ℝ) (hl : 0 < l) (n : ℕ) :
    ∑ k ∈ Finset.range n, poissonPMF l k ≤ 1 := by
  rw [sum_poissonPMF_eq l hl n]
  have h2 : ∑ k ∈ Finset.range n, l ^ k / (Nat.factorial k : ℝ) ≤ Real.exp l :=
    Real.sum_le_exp_of_nonneg hl.le n
  calc Real.exp (-l) * ∑ k ∈ Finset.range n, l ^ k / (Nat.factorial k : ℝ)
      ≤ Real.exp (-l) * Real.exp l := mul_le_mul_of_nonneg_left h2 (Real.exp_pos _).le
    _ = 1 := by rw [← Real.exp_add]; simp

lemma wH_add_wD_add_wA (lH lA : ℝ) :
    wH lH lA + wD lH lA + wA lH lA
      = (∑ k ∈ Finset.range 8, poissonPMF lH k) * (∑ k ∈ Finset.range 8, poissonPMF lA k) := by
  unfold wH wD wA
  rw [Finset.sum_mul_sum]
  rw [← Finset.sum_add_distrib, ← Finset.sum_add_distrib]
  refine Finset.sum_congr rfl fun h _ => ?_
  rw [← Finset.sum_add_distrib, ← Finset.sum_add_distrib]
  refine Finset.sum_congr rfl fun a _ => ?_
  rcases lt_trichotomy a h with hh | hh | hh
  · rw [if_pos hh, if_neg (by omega), if_neg (by omega)]; ring
  · rw [if_neg (by omega), if_pos (by omega), if_neg (by omega)]; ring
  · rw [if_neg (by omega), if_neg (by omega), if_pos hh]; ring

lemma probSum_eq (lH lA : ℝ) (ctx : MatchContext ℝ) :
    (buildPrediction lH lA ctx).probHome + (buildPrediction lH lA ctx).probDraw
      + (buildPrediction lH lA ctx).probAway
      = 100 * ((∑ k ∈ Finset.range 8, poissonPMF lH k)
          * (∑ k ∈ Finset.range 8, poissonPMF lA k)) := by
  have h := wH_add_wD_add_wA lH lA
  simp only [buildPrediction]
  linarith [h]

lemma sum_poissonPMF_thousand_le :
    ∑ k ∈ Finset.range 8, poissonPMF 1000 k ≤ 81 / 10000 := by
  have h0 : (0:ℝ) < 1000 := by norm_num
  have hexp : (1000:ℝ) ^ 8 / (Nat.factorial 8 : ℝ) ≤ Real.exp 1000 := by
    calc (1000:ℝ) ^ 8 / (Nat.factorial 8 : ℝ)
        ≤ ∑ k ∈ Finset.range 9, (1000:ℝ) ^ k / (Nat.factorial k : ℝ) :=
          Finset.single_le_sum (f := fun k => (1000:ℝ) ^ k / (Nat.factorial k : ℝ))
            (fun k _ => by positivity) (Finset.mem_range.mpr (by norm_num))
      _ ≤ Real.exp 1000 := Real.sum_le_exp_of_nonneg h0.le 9
  have hinv : Real.exp (-1000) ≤ (Nat.factorial 8 : ℝ) / (1000:ℝ) ^ 8 := by
    rw [Real.exp_neg]
    have h1 : (0:ℝ) < (1000:ℝ) ^ 8 / (Nat.factorial 8 : ℝ) := by positivity
    have h2 := inv_anti₀ h1 hexp
    rwa [inv_div] at h2
  rw [sum_poissonPMF_eq 1000 h0 8]
  have hT0 : (0:ℝ) ≤ ∑ k ∈ Finset.range 8, (1000:ℝ) ^ k / (Nat.factorial k : ℝ) := by
    positivity
  refine le_trans (mul_le_mul_of_nonneg_right hinv hT0) ?_
  rw [Finset.sum_range_succ, Finset.sum_range_succ, Finset.sum_range_succ,
      Finset.sum_range_succ, Finset.sum_range_succ, Finset.sum_range_succ,
      Finset.sum_range_succ, Finset.sum_range_succ, Finset.sum_range_zero]
  norm_num [Nat.factorial]

/-! ## Claim theorems (part 2): the probability-sum claim -/

/-- Claim C4 (counterexample): at `lambdaHome = lambdaAway = 1000` the
three outcome probabilities sum to at most 1, which is not within `1e-6`
of 100 — the 0..7 truncation of the score grid loses essentially all of
the probability mass at such rates. -/
theorem probSum_not_within_tolerance :
    ¬ |(buildPrediction 1000 1000 defaultCtx).probHome
        + (buildPrediction 1000 1000 defaultCtx).probDraw
        + (buildPrediction 1000 1000 defaultCtx).probAway - 100| ≤ 1 / 1000000 := by
  rw [probSum_eq 1000 1000 defaultCtx]
  intro habs
  have hS := sum_poissonPMF_thousand_le
  have hS0 : 0 ≤ ∑ k ∈ Finset.range 8, poissonPMF 1000 k := sum_poissonPMF_nonneg 1000 8
  have hle : 100 * ((∑ k ∈ Finset.range 8, poissonPMF 1000 k)
      * (∑ k ∈ Finset.range 8, poissonPMF 1000 k)) ≤ 1 := by nlinarith
  have habs2 := abs_le.mp habs
  linarith [habs2.1]

/-- Claim C4 (amended): for `lambdaHome, lambdaAway > 0` the three outcome
probabilities sum to exactly `100` times the product of the two truncated
(goals 0..7) Poisson masses; this sum is at most 100, but it is not in
general within `1e-6` of 100 (see the counterexample). -/
theorem probSum_eq_truncated_mass (lH lA : ℝ) (hH : 0 < lH) (hA : 0 < lA)
    (ctx : MatchContext ℝ) :
    ((buildPrediction lH lA ctx).probHome + (buildPrediction lH lA ctx).probDraw
        + (buildPrediction lH lA ctx).probAway
      = 100 * ((∑ k ∈ Finset.range 8, poissonPMF lH k)
          * (∑ k ∈ Finset.range 8, poissonPMF lA k))) ∧
    (buildPrediction lH lA ctx).probHome + (buildPrediction lH lA ctx).probDraw
        + (buildPrediction lH lA ctx).probAway ≤ 100 := by
  refine ⟨probSum_eq lH lA ctx, ?_⟩
  rw [probSum_eq lH lA ctx]
  have h1 := sum_poissonPMF_le_one lH hH 8
  have h2 := sum_poissonPMF_le_one lA hA 8
  have h3 := sum_poissonPMF_nonneg lH 8
  have h4 := sum_poissonPMF_nonneg lA 8
  nlinarith

/-- Witness for the amended C4 at `lambdaHome = lambdaAway = 1`. -/
theorem probSum_eq_truncated_mass_witness :
    ((buildPrediction 1 1 defaultCtx).probHome + (buildPrediction 1 1 defaultCtx).probDraw
        + (buildPrediction 1 1 defaultCtx).probAway
      = 100 * ((∑ k ∈ Finset.range 8, poissonPMF 1 k)
          * (∑ k ∈ Finset.range 8, poissonPMF 1 k))) ∧
    (buildPrediction 1 1 defaultCtx).probHome + (buildPrediction 1 1 defaultCtx).probDraw
        + (buildPrediction 1 1 defaultCtx).probAway ≤ 100 :=
  probSum_eq_truncated_mass 1 1 one_pos one_pos defaultCtx

/-! ## Truncated Poisson distribution function and its monotonicity in the rate -/

/-- The truncated distribution function `∑_{h < m} e^{-x} x^h / h!` in its
smooth closed form (equal to `∑_{h < m} poissonPMF x h` for `x > 0`). -/
noncomputable def truncCdf (m : ℕ) (x : ℝ) : ℝ :=
  ∑ h ∈ Finset.range m, Real.exp (-x) * x ^ h / (Nat.factorial h : ℝ)

lemma truncCdf_eq_sum_pmf (l : ℝ) (hl : 0 < l) (m : ℕ) :
    truncCdf m l = ∑ h ∈ Finset.range m, poissonPMF l h := by
  unfold truncCdf
  refine Finset.sum_congr rfl fun h _ => ?_
  unfold poissonPMF
  rw [if_neg (not_le.mpr hl)]

lemma hasDerivAt_expNeg (x : ℝ) :
    HasDerivAt (fun y : ℝ => Real.exp (-y)) (-Real.exp (-x)) x := by
  simpa [Function.comp] using (Real.hasDerivAt_exp (-x)).comp x (hasDerivAt_neg' x)

lemma hasDerivAt_pmfTerm (h : ℕ) (x : ℝ) :
    HasDerivAt (fun y : ℝ => Real.exp (-y) * y ^ h / (Nat.factorial h : ℝ))
      ((-Real.exp (-x) * x ^ h + Real.exp (-x) * (h * x ^ (h - 1)))
        / (Nat.factorial h : ℝ)) x :=
  ((hasDerivAt_expNeg x).mul (hasDerivAt_pow h x)).div_const _

lemma hasDerivAt_truncCdf_succ (k : ℕ) (x : ℝ) :
    HasDerivAt (truncCdf (k + 1))
      (-(Real.exp (-x) * x ^ k / (Nat.factorial k : ℝ))) x := by
  have hsum : HasDerivAt (fun y : ℝ => ∑ h ∈ Finset.range (k + 1),
      Real.exp (-y) * y ^ h / (Nat.factorial h : ℝ))
      (∑ h ∈ Finset.range (k + 1),
        (-Real.exp (-x) * x ^ h + Real.exp (-x) * (h * x ^ (h - 1)))
          / (Nat.factorial h : ℝ)) x :=
    HasDerivAt.sum fun h _ => hasDerivAt_pmfTerm h x
  have heq : ∑ h ∈ Finset.range (k + 1),
      (-Real.exp (-x) * x ^ h + Real.exp (-x) * (h * x ^ (h - 1)))
        / (Nat.factorial h : ℝ)
      = -(Real.exp (-x) * x ^ k / (Nat.factorial k : ℝ)) := by
    have hsplit : ∀ h ∈ Finset.range (k + 1),
        (-Real.exp (-x) * x ^ h + Real.exp (-x) * (h * x ^ (h - 1)))
          / (Nat.factorial h : ℝ)
        = Real.exp (-x) * (h * x ^ (h - 1)) / (Nat.factorial h : ℝ)
          - Real.exp (-x) * x ^ h / (Nat.factorial h : ℝ) := fun h _ => by ring
    rw [Finset.sum_congr rfl hsplit, Finset.sum_sub_distrib]
    have hA : ∑ h ∈ Finset.range (k + 1),
        Real.exp (-x) * (h * x ^ (h - 1)) / (Nat.factorial h : ℝ)
        = ∑ j ∈ Finset.range k, Real.exp (-x) * x ^ j / (Nat.factorial j : ℝ) := by
      rw [Finset.sum_range_succ']
      simp only [Nat.cast_zero, zero_mul, mul_zero, zero_div, add_zero]
      refine Finset.sum_congr rfl fun j _ => ?_
      have h1 : j + 1 - 1 = j := rfl
      rw [h1, Nat.factorial_succ]
      have hj : ((j : ℝ) + 1) ≠ 0 := by positivity
      have hf : (Nat.factorial j : ℝ) ≠ 0 := by
        exact_mod_cast (Nat.factorial_pos j).ne'
      push_cast
      field_simp
      ring
    rw [hA, Finset.sum_range_succ]
    ring
  have hfun : truncCdf (k + 1) = fun y : ℝ => ∑ h ∈ Finset.range (k + 1),
      Real.exp (-y) * y ^ h / (Nat.factorial h : ℝ) := rfl
  rw [hfun]
  exact heq ▸ hsum

lemma truncCdf_antitoneOn (m : ℕ) : AntitoneOn (truncCdf m) (Set.Ici 0) := by
  cases m with
  | zero =>
    intro a _ b _ _
    simp [truncCdf]
  | succ k =>
    have hdiff : Differentiable ℝ (truncCdf (k + 1)) := fun x =>
      (hasDerivAt_truncCdf_succ k x).differentiableAt
    refine antitoneOn_of_deriv_nonpos (convex_Ici 0) hdiff.continuous.continuousOn
      hdiff.differentiableOn ?_
    intro x hx
    rw [interior_Ici] at hx
    rw [(hasDerivAt_truncCdf_succ k x).deriv]
    have hx0 : (0:ℝ) < x := hx
    have hterm : (0:ℝ) ≤ Real.exp (-x) * x ^ k / (Nat.factorial k : ℝ) := by positivity
    linarith

lemma wA_eq (l lA : ℝ) (hl : 0 < l) :
    wA l lA = ∑ a ∈ Finset.range 8, poissonPMF lA a * truncCdf a l := by
  unfold wA
  rw [Finset.sum_comm]
  refine Finset.sum_congr rfl fun a ha => ?_
  have h8 : a ≤ 8 := le_of_lt (Finset.mem_range.mp ha)
  calc ∑ h ∈ Finset.range 8, (if h < a then poissonPMF l h * poissonPMF lA a else 0)
      = ∑ h ∈ (Finset.range 8).filter (· < a), poissonPMF l h * poissonPMF lA a :=
        (Finset.sum_filter _ _).symm
    _ = ∑ h ∈ Finset.range a, poissonPMF l h * poissonPMF lA a := by
        congr 1
        ext x
        simp only [Finset.mem_filter, Finset.mem_range]
        omega
    _ = poissonPMF lA a * truncCdf a l := by
        rw [← Finset.sum_mul, truncCdf_eq_sum_pmf l hl a, mul_comm]

lemma ite_pmf_nonneg (p : Prop) [Decidable p] (l1 l2 : ℝ) (h a : ℕ) :
    0 ≤ if p then poissonPMF l1 h * poissonPMF l2 a else 0 := by
  split_ifs
  · exact mul_nonneg (poissonPMF_nonneg _ _) (poissonPMF_nonneg _ _)
  · exact le_rfl

lemma poissonPMF_pos_rate (l : ℝ) (hl : 0 < l) (k : ℕ) :
    poissonPMF l k = Real.exp (-l) * l ^ k / (Nat.factorial k : ℝ) := by
  unfold poissonPMF
  rw [if_neg (not_le.mpr hl)]

lemma wH_ten_one_lower : poissonPMF 10 7 * poissonPMF 1 0 ≤ wH 10 1 := by
  unfold wH
  calc poissonPMF 10 7 * poissonPMF 1 0
      = (if (0:ℕ) < 7 then poissonPMF 10 7 * poissonPMF 1 0 else 0) := by norm_num
    _ ≤ ∑ a ∈ Finset.range 8, if a < 7 then poissonPMF 10 7 * poissonPMF 1 a else 0 :=
        Finset.single_le_sum
          (f := fun a => if a < 7 then poissonPMF 10 7 * poissonPMF 1 a else 0)
          (fun a _ => ite_pmf_nonneg _ _ _ _ _)
          (show (0:ℕ) ∈ Finset.range 8 by decide)
    _ ≤ ∑ h ∈ Finset.range 8, ∑ a ∈ Finset.range 8,
          if a < h then poissonPMF 10 h * poissonPMF 1 a else 0 :=
        Finset.single_le_sum
          (f := fun h => ∑ a ∈ Finset.range 8,
            if a < h then poissonPMF 10 h * poissonPMF 1 a else 0)
          (fun h _ => Finset.sum_nonneg fun a _ => ite_pmf_nonneg _ _ _ _ _)
          (show (7:ℕ) ∈ Finset.range 8 by decide)

lemma wH_le_prod (lH lA : ℝ) :
    wH lH lA ≤ (∑ k ∈ Finset.range 8, poissonPMF lH k)
      * (∑ k ∈ Finset.range 8, poissonPMF lA k) := by
  unfold wH
  rw [Finset.sum_mul_sum]
  refine Finset.sum_le_sum fun h _ => Finset.sum_le_sum fun a _ => ?_
  split_ifs
  · exact le_rfl
  · exact mul_nonneg (poissonPMF_nonneg _ _) (poissonPMF_nonneg _ _)

lemma exp_ten_lt : Real.exp 10 < 2.72 ^ 10 := by
  have h1 : Real.exp 1 < 2.72 := lt_trans Real.exp_one_lt_d9 (by norm_num)
  have h2 : Real.exp 10 = Real.exp 1 ^ 10 := by
    rw [← Real.exp_nat_mul]
    norm_num
  rw [h2]
  exact pow_lt_pow_left₀ h1 (Real.exp_pos 1).le (by norm_num)

lemma probHome_ten_lower : 3 ≤ (buildPrediction 10 1 defaultCtx).probHome := by
  have h10 : (0:ℝ) < 10 := by norm_num
  have hB : Real.exp 1 < 2.72 := lt_trans Real.exp_one_lt_d9 (by norm_num)
  have hterm : (3:ℝ) / 100 ≤ poissonPMF 10 7 * poissonPMF 1 0 := by
    rw [poissonPMF_pos_rate 10 h10 7, poissonPMF_pos_rate 1 one_pos 0]
    rw [Real.exp_neg, Real.exp_neg]
    have hinvA : ((2.72:ℝ) ^ 10)⁻¹ ≤ (Real.exp 10)⁻¹ :=
      inv_anti₀ (Real.exp_pos 10) exp_ten_lt.le
    have hinvB : ((2.72:ℝ))⁻¹ ≤ (Real.exp 1)⁻¹ :=
      inv_anti₀ (Real.exp_pos 1) hB.le
    have s1 : ((2.72:ℝ) ^ 10)⁻¹ * ((2.72:ℝ))⁻¹ ≤ (Real.exp 10)⁻¹ * (Real.exp 1)⁻¹ :=
      mul_le_mul hinvA hinvB (by positivity) (by positivity)
    calc (3:ℝ) / 100
        ≤ ((2.72:ℝ) ^ 10)⁻¹ * ((2.72:ℝ))⁻¹ * (10 ^ 7 / 5040) := by norm_num
      _ ≤ (Real.exp 10)⁻¹ * (Real.exp 1)⁻¹ * (10 ^ 7 / 5040) :=
          mul_le_mul_of_nonneg_right s1 (by norm_num)
      _ = (Real.exp 10)⁻¹ * 10 ^ 7 / (Nat.factorial 7 : ℝ)
            * ((Real.exp 1)⁻¹ * 1 ^ 0 / (Nat.factorial 0 : ℝ)) := by
          norm_num [Nat.factorial]
          ring
  have hge : (3:ℝ) / 100 ≤ wH 10 1 := le_trans hterm wH_ten_one_lower
  simp only [buildPrediction]
  linarith

lemma probHome_thousand_upper : (buildPrediction 1000 1 defaultCtx).probHome ≤ 1 := by
  have h1 := wH_le_prod 1000 1
  have h2 := sum_poissonPMF_thousand_le
  have h3 := sum_poissonPMF_le_one 1 one_pos 8
  have h4 := sum_poissonPMF_nonneg 1000 8
  have h5 := sum_poissonPMF_nonneg 1 8
  have h6 : (∑ k ∈ Finset.range 8, poissonPMF 1000 k)
      * (∑ k ∈ Finset.range 8, poissonPMF 1 k) ≤ 81 / 10000 * 1 :=
    mul_le_mul h2 h3 h5 (by norm_num)
  simp only [buildPrediction]
  nlinarith

/-! ## Claim theorems (part 3): monotonicity in `lambdaHome` -/

/-- Claim C6 (counterexample): increasing `lambdaHome` from 10 to 1000
(with `lambdaAway = 1` fixed) strictly DECREASES `probHome` — because the
score grid is truncated at 7 goals, the home-win mass vanishes as
`lambdaHome` grows, so `probHome` is not strictly increasing. -/
theorem probHome_not_increasing :
    (10:ℝ) < 1000 ∧
    (buildPrediction 1000 1 defaultCtx).probHome
      < (buildPrediction 10 1 defaultCtx).probHome := by
  refine ⟨by norm_num, ?_⟩
  have h1 := probHome_thousand_upper
  have h2 := probHome_ten_lower
  linarith

/-- Claim C6 (amended): for every fixed `lambdaAway > 0`, increasing
`lambdaHome` does not increase `probAway` (the truncated Poisson
distribution function is antitone in its rate); the `probHome` half of
the original claim is false, see the counterexample. -/
theorem probAway_antitone_in_lambdaHome (lA l1 l2 : ℝ) (ctx : MatchContext ℝ)
    (hA : 0 < lA) (h1 : 0 < l1) (h12 : l1 ≤ l2) :
    (buildPrediction l2 lA ctx).probAway ≤ (buildPrediction l1 lA ctx).probAway := by
  have _ := hA
  have hwa : wA l2 lA ≤ wA l1 lA := by
    rw [wA_eq l2 lA (h1.trans_le h12), wA_eq l1 lA h1]
    refine Finset.sum_le_sum fun a _ => ?_
    refine mul_le_mul_of_nonneg_left ?_ (poissonPMF_nonneg lA a)
    exact truncCdf_antitoneOn a (Set.mem_Ici.mpr h1.le)
      (Set.mem_Ici.mpr (h1.trans_le h12).le) h12
  simp only [buildPrediction]
  linarith

/-- Witness for the amended C6 at `lambdaAway = 1`, `lambdaHome` from 1 to 2. -/
theorem probAway_antitone_in_lambdaHome_witness :
    (buildPrediction 2 1 defaultCtx).probAway ≤ (buildPrediction 1 1 defaultCtx).probAway :=
  probAway_antitone_in_lambdaHome 1 1 2 defaultCtx one_pos one_pos one_le_two

end FootballAnalyzer
